import Mathlib

/-!
Shallow embedding of the podman-scaler sandbox:
  * `BlobProcessor/blob_processor/__main__.py` (worker pipeline),
  * `KedaTestScaler/keda_test_scaler/__main__.py` (autoscaling reconciler),
  * `BlobBasedEventHandler/blob_event_handler/__main__.py` (discovery poller).
The object store is an association list from blob path to blob content;
queues are lists; broker/runtime failures are supplied as boolean oracles.
-/

namespace PodmanScaler

/-- The blob container: an association list from blob path to blob content.
Lookup returns the first binding, mirroring a key-value store. -/
abbrev Store := List (String × String)

/-- Look a key up in an association list (first match wins). -/
def slook : List (String × String) → String → Option String
  | [], _ => none
  | (k, v) :: t, key => if k = key then some v else slook t key

/-- Remove every binding of a key (blob deletion). -/
def serase : List (String × String) → String → List (String × String)
  | [], _ => []
  | p :: t, key => if p.1 = key then serase t key else p :: serase t key

/-- Upload/overwrite a blob: the new binding shadows and replaces old ones. -/
def supsert (s : List (String × String)) (key v : String) : List (String × String) :=
  (key, v) :: serase s key

/-!
## Worker pipeline: `BlobProcessor/blob_processor/__main__.py`
-/

/-- Python `s.startswith(pre)`: the first `pre.length` characters of `s`
form exactly `pre`. -/
def pyStartswith (s pre : String) : Bool := s.take pre.length == pre

/-- Python `s.endswith(suf)`: the last `suf.length` characters of `s`
form exactly `suf`. -/
def pyEndswith (s suf : String) : Bool := s.drop (s.length - suf.length) == suf

/-- `os.path.join(a, b)` for two components, as used at
`src_blob = os.path.join(msg["path"], msg["blob"])`: an absolute second
component replaces the first; otherwise the parts are joined with a single
separator (no extra separator when `a` already ends in one or is empty). -/
def osPathJoin (a b : String) : String :=
  if pyStartswith b "/" then b
  else if a = "" then b
  else if pyEndswith a "/" then a ++ b
  else a ++ "/" ++ b

/-- The destination path computed by `process_message` (lines 229-234):
`src_blob.replace("sample/", "processed/sample/", 1)` under a
`startswith("sample/")` guard — since the guard makes the leading `sample/`
(7 characters) the first occurrence, the replace rewrites that prefix to
`processed/sample/` — and `"processed/" + src_blob` otherwise. -/
def computeDest (src : String) : String :=
  if pyStartswith src "sample/" then "processed/sample/" ++ src.drop 7
  else "processed/" ++ src

/-- Errors raised inside one attempt of the move body. -/
inductive MoveErr
  | sourceNotFound
  | transientErr
  deriving DecidableEq, Repr

/-- One attempt of the body of `move_blob` (lines 120-157): start a
server-side copy of the source blob to the destination — which raises when
the source blob does not exist — wait for `success`, then delete the source.
The `transient` oracle injects a transient store error (timeout, throttling)
before any mutation on the given attempt number. There is no
destination-already-exists check and no source-missing tolerance in the
source code. -/
def moveAttempt (transient : Nat → Bool) (store : Store) (src dest : String)
    (attempt : Nat) : Except MoveErr Store :=
  if transient attempt then .error .transientErr
  else match slook store src with
    | none => .error .sourceNotFound
    | some content => .ok (serase (supsert store dest content) src)

/-- Decidable equality for `Except`, so that concrete move outcomes can be
checked by `decide`. -/
instance {E A : Type} [DecidableEq E] [DecidableEq A] : DecidableEq (Except E A)
  | .ok a, .ok b =>
    if h : a = b then .isTrue (h ▸ rfl) else .isFalse (fun hc => h (Except.ok.inj hc))
  | .ok _, .error _ => .isFalse (fun hc => Except.noConfusion hc)
  | .error _, .ok _ => .isFalse (fun hc => Except.noConfusion hc)
  | .error e, .error f =>
    if h : e = f then .isTrue (h ▸ rfl) else .isFalse (fun hc => h (Except.error.inj hc))

/-- tenacity `wait_exponential(multiplier, min, max)`: the backoff slept
after failed attempt number `n` is `max(min, min(multiplier * 2^(n-1), max))`. -/
def wait_exponential (multiplier mn mx attemptNumber : Nat) : Nat :=
  Nat.max mn (Nat.min (multiplier * 2 ^ (attemptNumber - 1)) mx)

/-- Trace of a tenacity-retried call: the final outcome, the number of
attempts actually made, and the backoff waits slept between attempts. -/
structure RetryTrace (E A : Type) where
  outcome : Except E A
  attempts : Nat
  waits : List Nat

/-- tenacity `@retry(stop=stop_after_attempt(fuel), wait=w)`: call `f` at
attempt numbers `n, n+1, ...` until the first success or until the attempt
budget is spent (the last error is then surfaced as a `RetryError`),
sleeping `w` between consecutive attempts. The source always uses a
positive budget. -/
def runRetry {E A : Type} (w : Nat → Nat) (f : Nat → Except E A) (n : Nat) :
    Nat → RetryTrace E A
  | 0 => { outcome := f n, attempts := 1, waits := [] }
  | fuel + 1 =>
    match f n with
    | .ok a => { outcome := .ok a, attempts := 1, waits := [] }
    | .error e =>
      if fuel = 0 then { outcome := .error e, attempts := 1, waits := [] }
      else
        let rest := runRetry w f (n + 1) fuel
        { outcome := rest.outcome, attempts := rest.attempts + 1,
          waits := w n :: rest.waits }

/-- `move_blob` (lines 117-157): the move body wrapped in
`@retry(stop=stop_after_attempt(3), wait=wait_exponential(multiplier=1, min=1, max=4))`.
A failed attempt performs no mutation, so every attempt runs against the
input store; a successful outcome carries the mutated store. -/
def move_blob (transient : Nat → Bool) (store : Store) (src dest : String) :
    RetryTrace MoveErr Store :=
  runRetry (wait_exponential 1 1 4) (moveAttempt transient store src dest) 1 3

/-- Python exception kinds arising in `process_message` and `publish_error`. -/
inductive PyErr
  | attributeError
  deriving DecidableEq, Repr

/-- A dead-letter record as built by `publish_error` (lines 285-291); the
`error` string and `processor_id` fields are omitted, the fields the claims
inspect are kept. -/
structure ErrorRecord where
  error_type : String
  failed_message : List (String × String)
  failed_at : String
  deriving DecidableEq, Repr

/-- Modelled from the source, line 289: `datetime.now(datetime.UTC)`.
`datetime` names the class (`from datetime import datetime`, line 8), and the
`datetime` class has no `UTC` attribute (that alias lives on the `datetime`
module, not on the class), so evaluating this expression raises
`AttributeError` instead of producing a timestamp. -/
def datetimeNowUTC : Except PyErr String := .error .attributeError

/-- `publish_error` (lines 280-302): build the error record and publish it to
the dead-letter queue. Building the record evaluates
`datetime.now(datetime.UTC)` for the `failed_at` field, which raises
`AttributeError`; the function's own try/except catches every exception and
only logs it, so control returns with nothing appended to the error queue. -/
def publish_error (errorQueue : List ErrorRecord) (errType : String)
    (failed : List (String × String)) : List ErrorRecord :=
  match datetimeNowUTC with
  | .ok ts =>
    errorQueue ++ [{ error_type := errType, failed_message := failed, failed_at := ts }]
  | .error _ => errorQueue

/-- A delivered message body after the `json.loads` step: either the parse
raised `JSONDecodeError` (undecodable body) or it yielded an object whose
fields we model as string-valued. -/
inductive MsgBody
  | badJson (raw : String)
  | json (fields : List (String × String))

/-- Required message fields checked at line 220. -/
def requiredKeys : List String := ["path", "blob", "dest"]

/-- Observable result of one `process_message` callback invocation. -/
structure ProcResult where
  store : Store
  errorQueue : List ErrorRecord
  acked : Bool
  moveInvoked : Bool
  srcPath : Option String
  destPath : Option String
  moved : Bool
  deriving DecidableEq, Repr

/-- `process_message` (lines 210-277). Undecodable JSON and missing required
fields route to `publish_error` plus an ack without invoking the move
(lines 253-263); otherwise the source path is joined from `path` and `blob`
(line 226, with the `if msg["path"]` truthiness guard), the destination is
computed by `computeDest` — the message's `dest` field is never read past
validation — and `move_blob` runs; on success the message is acked
(line 251), and on a `RetryError` the generic handler publishes the error
and acks (lines 265-277). -/
def process_message (transient : Nat → Bool) (store : Store)
    (errorQueue : List ErrorRecord) (body : MsgBody) : ProcResult :=
  match body with
  | .badJson raw =>
    { store := store, errorQueue := publish_error errorQueue "JSONDecodeError" [("raw_body", raw)],
      acked := true, moveInvoked := false, srcPath := none, destPath := none, moved := false }
  | .json msg =>
    let missing := requiredKeys.filter (fun k => (slook msg k).isNone)
    if missing.isEmpty then
      let path := (slook msg "path").getD ""
      let blob := (slook msg "blob").getD ""
      let src := if path ≠ "" then osPathJoin path blob else blob
      let dest := computeDest src
      match (move_blob transient store src dest).outcome with
      | .ok store2 =>
        { store := store2, errorQueue := errorQueue, acked := true, moveInvoked := true,
          srcPath := some src, destPath := some dest, moved := true }
      | .error _ =>
        { store := store, errorQueue := publish_error errorQueue "RetryError" msg,
          acked := true, moveInvoked := true,
          srcPath := some src, destPath := some dest, moved := false }
    else
      { store := store, errorQueue := publish_error errorQueue "KeyError" msg,
        acked := true, moveInvoked := false, srcPath := none, destPath := none, moved := false }

/-!
## Autoscaling reconciler: `KedaTestScaler/keda_test_scaler/__main__.py`
-/

/-- Format of the `CreatedAt` string podman reports for a container, as
consumed by the parsing in `cleanup_stale_containers` (lines 124-139): an
absolute timestamp that `datetime.strptime` accepts once a trailing timezone
abbreviation is stripped, a relative string containing `ago` (the
`"X minutes ago"` style), or a missing/unparsable value. -/
inductive CreatedFmt
  | absolute
  | agoRelative
  | unparsable
  deriving DecidableEq, Repr

/-- A labeled worker container as seen through the label-filtered
`podman ps` listing: its id, the format its `CreatedAt` field arrives in,
and its age in seconds (for a parseable absolute timestamp this is the
computed `datetime.now() - created_time`). -/
structure ContainerInfo where
  id : String
  createdFmt : CreatedFmt
  ageSeconds : Nat
  deriving DecidableEq, Repr

/-- `scale_up` (lines 84-99) with a failure oracle for the podman `run`
commands: each iteration creates one container, and `run_podman_command`
(lines 45-58) logs and re-raises a `CalledProcessError`, which aborts the
loop. The result is `.ok n` when all `n` creations succeed and `.error k`
when the exception escapes after `k` successful creations; `i` numbers the
creation attempts from 0. -/
def scale_up (createFail : Nat → Bool) (i : Nat) : Nat → Except Nat Nat
  | 0 => .ok 0
  | n + 1 =>
    if createFail i then .error 0
    else match scale_up createFail (i + 1) n with
      | .ok k => .ok (k + 1)
      | .error k => .error (k + 1)

/-- Whether `cleanup_stale_containers` reaches the stop-and-remove branch
for a container: the first 12 characters of its id are nonempty (lines
121-122), its `CreatedAt` is present, not of the `ago` form — that form is
explicitly skipped at lines 132-134 — and parseable (an unparsable value
lands in the except at line 148), and the parsed age exceeds 300 seconds
(line 141). -/
def staleSelected (c : ContainerInfo) : Bool :=
  (c.id.take 12 != "") && (c.createdFmt == .absolute) && decide (c.ageSeconds > 300)

/-- `cleanup_stale_containers` (lines 116-155) with failure oracles for the
podman `stop` and `rm` commands, returning the ids of the containers
actually removed. A `stop` or `rm` failure on one container raises inside
the per-container try (line 126) and is caught at line 148, so that
container is skipped (`rm` never runs after a failed `stop`) and the loop
continues with the remaining containers. -/
def cleanup_stale_containers (stopFail rmFail : String → Bool) :
    List ContainerInfo → List String
  | [] => []
  | c :: rest =>
    if staleSelected c && !stopFail (c.id.take 12) && !rmFail (c.id.take 12) then
      c.id.take 12 :: cleanup_stale_containers stopFail rmFail rest
    else cleanup_stale_containers stopFail rmFail rest

/-- Observable result of one reconciler iteration. -/
structure TickResult where
  created : Nat
  gcRan : Bool
  removed : List String
  deriving DecidableEq, Repr

/-- One iteration of the reconciler main loop (lines 163-205): measure the
backlog and the running labeled containers, create `MAX_REPLICAS - running`
new containers when the backlog is positive and that difference is positive
(lines 171-183; no scale-down branch exists in the loop), then
garbage-collect stale containers (line 194). An exception escaping
`scale_up` is caught only by the iteration-level handler at line 202, so
the cleanup step is skipped for that tick. -/
def reconcileTick (qLen : Nat) (containers : List ContainerInfo)
    (maxReplicas : Nat) (createFail : Nat → Bool)
    (stopFail rmFail : String → Bool) : TickResult :=
  let running := containers.length
  let scaleRes : Except Nat Nat :=
    if qLen > 0 then
      let toCreate : Int := (maxReplicas : Int) - (running : Int)
      if toCreate > 0 then scale_up createFail 0 toCreate.toNat else .ok 0
    else .ok 0
  match scaleRes with
  | .error k => { created := k, gcRan := false, removed := [] }
  | .ok k =>
    { created := k, gcRan := true,
      removed := cleanup_stale_containers stopFail rmFail containers }

/-!
## Discovery poller: `BlobBasedEventHandler/blob_event_handler/__main__.py`
-/

/-- Python `s.rpartition("/")` restricted to the two pieces the poller uses
(line 102): the part before the last slash and the part after it; a string
without a slash yields an empty head and the whole string as tail. -/
def rpartitionSlash (s : String) : String × String :=
  if s.data.contains '/' then
    let tailRev := s.data.reverse.takeWhile (fun c => !(c = '/' : Bool))
    let headRev := s.data.reverse.drop (tailRev.length + 1)
    (String.mk headRev.reverse, String.mk tailRev.reverse)
  else ("", s)

/-- A published Work Item message: the fields `build_message` (lines 65-73)
fills — the `timestamp` field is omitted here — plus the `delivery_mode`
set on the `basic_publish` properties at line 109 (2 means persistent). -/
structure WorkMsg where
  container : String
  path : String
  blob : String
  dest : String
  deliveryMode : Nat
  deriving DecidableEq, Repr

/-- `build_message` (lines 65-73): the destination is
`f"processed/{uuid.uuid4()}-{blob_name}"` with a fresh uuid draw. -/
def build_message (uuid container path name : String) : WorkMsg :=
  { container := container, path := path, blob := name,
    dest := "processed/" ++ uuid ++ "-" ++ name, deliveryMode := 2 }

/-- The body of the poll loop over one listing (lines 97-111): skip blobs
whose name starts with `processed/`, rpartition the rest at the last slash,
and build and publish one persistent-delivery message per remaining blob;
`k` numbers the `uuid4()` draws, one per published message. -/
def pollPublish (uuidGen : Nat → String) (container : String) :
    List String → Nat → List WorkMsg
  | [], _ => []
  | b :: rest, k =>
    if pyStartswith b "processed/" then pollPublish uuidGen container rest k
    else
      let pr := rpartitionSlash b
      build_message (uuidGen k) container (if pr.1 ≠ "" then pr.1 ++ "/" else "") pr.2
        :: pollPublish uuidGen container rest (k + 1)

/-- One `poll_iteration` (lines 91-123) against the store: list the blob
names and publish the Work Items. The iteration only reads the store; the
returned store is the unchanged input, making the read-only contract
explicit. -/
def pollTick (uuidGen : Nat → String) (container : String) (store : Store) :
    Store × List WorkMsg :=
  (store, pollPublish uuidGen container (store.map Prod.fst) 0)

/-!
## Helper lemmas
-/

theorem slook_supsert_self (s : List (String × String)) (k v : String) :
    slook (supsert s k v) k = some v := by
  simp [supsert, slook]

theorem slook_serase_self (s : List (String × String)) (k : String) :
    slook (serase s k) k = none := by
  induction s with
  | nil => rfl
  | cons p t ih =>
    by_cases h : p.1 = k
    · simpa [serase, h] using ih
    · simpa [serase, slook, h] using ih

theorem slook_serase_ne (s : List (String × String)) (k k2 : String) (h : k2 ≠ k) :
    slook (serase s k) k2 = slook s k2 := by
  induction s with
  | nil => rfl
  | cons p t ih =>
    by_cases hp : p.1 = k
    · simp [serase, hp, slook, ih, Ne.symm h]
    · by_cases hq : p.1 = k2 <;> simp [serase, hp, slook, hq, ih, h]

theorem slook_supsert_ne (s : List (String × String)) (k v k2 : String) (h : k2 ≠ k) :
    slook (supsert s k v) k2 = slook s k2 := by
  have : ¬ k = k2 := fun e => h e.symm
  simp [supsert, slook, this, slook_serase_ne s k k2 h]

/-- Both branches of `computeDest` prepend `processed/` to the source path. -/
theorem computeDest_eq (src : String) : computeDest src = "processed/" ++ src := by
  unfold computeDest
  by_cases h : pyStartswith src "sample/" = true
  · have htake : src.take 7 = "sample/" := by
      have h2 : (src.take "sample/".length == "sample/") = true := by
        simpa [pyStartswith] using h
      exact eq_of_beq h2
    have hd : src.data.take 7 = "sample/".data := by
      rw [← String.data_take, htake]
    have key : "sample/".data ++ src.data.drop 7 = src.data := by
      rw [← hd]; exact List.take_append_drop 7 src.data
    apply String.ext
    simp only [h, if_true, String.data_append, String.data_drop]
    conv_rhs => rw [← key, ← List.append_assoc]
    rfl
  · simp [h]

/-- A move whose source exists and whose attempts see no transient error
succeeds on the first attempt: the content is copied to the destination and
the source binding is deleted. -/
theorem move_blob_ok (store : Store) (src dest content : String)
    (hsrc : slook store src = some content) :
    (move_blob (fun _ => false) store src dest).outcome =
      .ok (serase (supsert store dest content) src) := by
  simp [move_blob, runRetry, moveAttempt, hsrc]

/-- A move whose source is missing fails: every attempt raises (a transient
error or source-not-found), so after the attempt budget the error is
surfaced. -/
theorem move_blob_src_missing (t : Nat → Bool) (store : Store) (src dest : String)
    (h : slook store src = none) :
    (move_blob t store src dest).outcome.isOk = false := by
  by_cases h1 : t 1 <;> by_cases h2 : t 2 <;> by_cases h3 : t 3 <;>
    simp [move_blob, runRetry, moveAttempt, h, h1, h2, h3, Except.isOk, Except.toBool]

/-- The computed destination is strictly longer than the source path, hence
distinct from it. -/
theorem computeDest_ne (src : String) : src ≠ computeDest src := by
  intro h
  have hlen : (computeDest src).length = 10 + src.length := by
    rw [computeDest_eq]
    show ("processed/" ++ src).data.length = 10 + src.data.length
    rw [String.data_append]
    simp [List.length_append]
    omega
  rw [← h] at hlen
  omega

/-- A message carrying the three required fields passes validation, and
`process_message` then moves the blob between the paths it computes from
`path` and `blob` alone; either outcome acks, and the error queue is
returned unchanged in the failure branch because `publish_error` publishes
nothing. -/
theorem process_message_valid (t : Nat → Bool) (store : Store)
    (eq0 : List ErrorRecord) (path blob dest : String) :
    process_message t store eq0 (.json [("path", path), ("blob", blob), ("dest", dest)]) =
      match (move_blob t store (if path ≠ "" then osPathJoin path blob else blob)
          (computeDest (if path ≠ "" then osPathJoin path blob else blob))).outcome with
      | .ok store2 =>
        { store := store2, errorQueue := eq0, acked := true, moveInvoked := true,
          srcPath := some (if path ≠ "" then osPathJoin path blob else blob),
          destPath := some (computeDest (if path ≠ "" then osPathJoin path blob else blob)),
          moved := true }
      | .error _ =>
        { store := store, errorQueue := eq0, acked := true, moveInvoked := true,
          srcPath := some (if path ≠ "" then osPathJoin path blob else blob),
          destPath := some (computeDest (if path ≠ "" then osPathJoin path blob else blob)),
          moved := false } := by
  simp [process_message, requiredKeys, slook, publish_error, datetimeNowUTC]

/-- Record form of `process_message_valid` when the move succeeds. -/
theorem process_message_valid_ok (t : Nat → Bool) (store store2 : Store)
    (eq0 : List ErrorRecord) (path blob dest : String)
    (hmv : (move_blob t store (if path ≠ "" then osPathJoin path blob else blob)
        (computeDest (if path ≠ "" then osPathJoin path blob else blob))).outcome =
      .ok store2) :
    process_message t store eq0 (.json [("path", path), ("blob", blob), ("dest", dest)]) =
      { store := store2, errorQueue := eq0, acked := true, moveInvoked := true,
        srcPath := some (if path ≠ "" then osPathJoin path blob else blob),
        destPath := some (computeDest (if path ≠ "" then osPathJoin path blob else blob)),
        moved := true } := by
  rw [process_message_valid, hmv]

/-- Field-level form of `process_message_valid_ok`. -/
theorem process_message_ok_fields (t : Nat → Bool) (store store2 : Store)
    (eq0 : List ErrorRecord) (path blob dest : String)
    (hmv : (move_blob t store (if path ≠ "" then osPathJoin path blob else blob)
        (computeDest (if path ≠ "" then osPathJoin path blob else blob))).outcome =
      .ok store2) :
    (process_message t store eq0
      (.json [("path", path), ("blob", blob), ("dest", dest)])).store = store2 ∧
    (process_message t store eq0
      (.json [("path", path), ("blob", blob), ("dest", dest)])).errorQueue = eq0 ∧
    (process_message t store eq0
      (.json [("path", path), ("blob", blob), ("dest", dest)])).acked = true ∧
    (process_message t store eq0
      (.json [("path", path), ("blob", blob), ("dest", dest)])).moveInvoked = true ∧
    (process_message t store eq0
      (.json [("path", path), ("blob", blob), ("dest", dest)])).destPath =
        some (computeDest (if path ≠ "" then osPathJoin path blob else blob)) ∧
    (process_message t store eq0
      (.json [("path", path), ("blob", blob), ("dest", dest)])).moved = true := by
  rw [process_message_valid_ok t store store2 eq0 path blob dest hmv]
  exact ⟨rfl, rfl, rfl, rfl, rfl, rfl⟩

/-!
## Claims
-/

/-- Claim C1, counterexample: for the valid message with path `e2e/`, blob
`foo.txt` and published dest `processed/123-foo.txt`, the worker moves the
source to `processed/e2e/foo.txt` — a destination it computes itself from
`path` and `blob` — not to the `dest` carried in the message; after the
successful move no object exists at the message's `dest` path. -/
theorem C1_counterexample :
    (process_message (fun _ => false) [("e2e/foo.txt", "hello")] []
        (.json [("path", "e2e/"), ("blob", "foo.txt"),
          ("dest", "processed/123-foo.txt")])).moved = true ∧
    (process_message (fun _ => false) [("e2e/foo.txt", "hello")] []
        (.json [("path", "e2e/"), ("blob", "foo.txt"),
          ("dest", "processed/123-foo.txt")])).destPath = some "processed/e2e/foo.txt" ∧
    (process_message (fun _ => false) [("e2e/foo.txt", "hello")] []
        (.json [("path", "e2e/"), ("blob", "foo.txt"),
          ("dest", "processed/123-foo.txt")])).destPath ≠ some "processed/123-foo.txt" ∧
    slook (process_message (fun _ => false) [("e2e/foo.txt", "hello")] []
        (.json [("path", "e2e/"), ("blob", "foo.txt"),
          ("dest", "processed/123-foo.txt")])).store "processed/123-foo.txt" = none ∧
    slook (process_message (fun _ => false) [("e2e/foo.txt", "hello")] []
        (.json [("path", "e2e/"), ("blob", "foo.txt"),
          ("dest", "processed/123-foo.txt")])).store "processed/e2e/foo.txt" =
      some "hello" := by
  decide

/-- Claim C1 as amended: for every valid queue message whose source object
exists (and with no transient store error), the worker moves the source to
the destination it computes solely from `path` and `blob` — `processed/`
prefixed to the joined source path — ignoring the message's `dest` field;
after the move the object exists at exactly that computed path and the
source is gone. -/
theorem C1_amended (path blob dest content : String) (store : Store)
    (hsrc : slook store (if path ≠ "" then osPathJoin path blob else blob) = some content) :
    (process_message (fun _ => false) store []
        (.json [("path", path), ("blob", blob), ("dest", dest)])).moved = true ∧
    (process_message (fun _ => false) store []
        (.json [("path", path), ("blob", blob), ("dest", dest)])).destPath =
      some ("processed/" ++ (if path ≠ "" then osPathJoin path blob else blob)) ∧
    slook (process_message (fun _ => false) store []
        (.json [("path", path), ("blob", blob), ("dest", dest)])).store
      ("processed/" ++ (if path ≠ "" then osPathJoin path blob else blob)) = some content ∧
    slook (process_message (fun _ => false) store []
        (.json [("path", path), ("blob", blob), ("dest", dest)])).store
      (if path ≠ "" then osPathJoin path blob else blob) = none := by
  obtain ⟨hstore, -, -, -, hdest, hmoved⟩ :=
    process_message_ok_fields (fun _ => false) store _ [] path blob dest
      (move_blob_ok store _ _ content hsrc)
  refine ⟨hmoved, ?_, ?_, ?_⟩
  · rw [hdest, computeDest_eq]
  · rw [hstore, ← computeDest_eq,
      slook_serase_ne _ _ _ (Ne.symm (computeDest_ne _)), slook_supsert_self]
  · rw [hstore]
    exact slook_serase_self _ _

/-- Claim C1 witness: the amended statement at a concrete message and
store. -/
theorem C1_witness :
    (process_message (fun _ => false) [("e2e/foo.txt", "hello")] []
        (.json [("path", "e2e/"), ("blob", "foo.txt"), ("dest", "d")])).moved = true ∧
    (process_message (fun _ => false) [("e2e/foo.txt", "hello")] []
        (.json [("path", "e2e/"), ("blob", "foo.txt"), ("dest", "d")])).destPath =
      some ("processed/" ++
        (if "e2e/" ≠ "" then osPathJoin "e2e/" "foo.txt" else "foo.txt")) ∧
    slook (process_message (fun _ => false) [("e2e/foo.txt", "hello")] []
        (.json [("path", "e2e/"), ("blob", "foo.txt"), ("dest", "d")])).store
      ("processed/" ++
        (if "e2e/" ≠ "" then osPathJoin "e2e/" "foo.txt" else "foo.txt")) = some "hello" ∧
    slook (process_message (fun _ => false) [("e2e/foo.txt", "hello")] []
        (.json [("path", "e2e/"), ("blob", "foo.txt"), ("dest", "d")])).store
      (if "e2e/" ≠ "" then osPathJoin "e2e/" "foo.txt" else "foo.txt") = none :=
  C1_amended "e2e/" "foo.txt" "d" "hello" [("e2e/foo.txt", "hello")] (by decide)

/-- Claim C2, counterexample: after a successful move of `e2e/foo.txt` to
`processed/e2e/foo.txt`, the destination holds the matching content and the
source is gone; invoking the move a second time then raises (every attempt
fails with source-not-found and the retry budget surfaces the error) instead
of treating the existing matching destination or the missing source as
success. -/
theorem C2_counterexample :
    (move_blob (fun _ => false) [("e2e/foo.txt", "hello")] "e2e/foo.txt"
        "processed/e2e/foo.txt").outcome = .ok [("processed/e2e/foo.txt", "hello")] ∧
    slook [("processed/e2e/foo.txt", "hello")] "processed/e2e/foo.txt" = some "hello" ∧
    slook [("processed/e2e/foo.txt", "hello")] "e2e/foo.txt" = none ∧
    (move_blob (fun _ => false) [("processed/e2e/foo.txt", "hello")] "e2e/foo.txt"
        "processed/e2e/foo.txt").outcome = .error .sourceNotFound := by
  decide

/-- Claim C2 as amended: the move is not idempotent. A first invocation with
the source present succeeds and leaves the destination holding the content
and the source deleted; a second invocation on that end state raises (its
outcome is an error, under any transient-error oracle) — the end state
itself is preserved only because a failed invocation performs no mutation. -/
theorem C2_amended (store : Store) (src dest content : String) (t2 : Nat → Bool)
    (hsrc : slook store src = some content) (hne : src ≠ dest) :
    (move_blob (fun _ => false) store src dest).outcome =
      .ok (serase (supsert store dest content) src) ∧
    slook (serase (supsert store dest content) src) dest = some content ∧
    slook (serase (supsert store dest content) src) src = none ∧
    (move_blob t2 (serase (supsert store dest content) src) src dest).outcome.isOk =
      false := by
  refine ⟨move_blob_ok store src dest content hsrc, ?_, slook_serase_self _ _, ?_⟩
  · rw [slook_serase_ne _ _ _ (Ne.symm hne)]
    exact slook_supsert_self _ _ _
  · exact move_blob_src_missing t2 _ src dest (slook_serase_self _ _)

/-- Claim C2 witness: the amended statement at a concrete store and paths. -/
theorem C2_witness :
    (move_blob (fun _ => false) [("e2e/foo.txt", "hello")] "e2e/foo.txt"
        "processed/e2e/foo.txt").outcome =
      .ok (serase (supsert [("e2e/foo.txt", "hello")] "processed/e2e/foo.txt" "hello")
        "e2e/foo.txt") ∧
    slook (serase (supsert [("e2e/foo.txt", "hello")] "processed/e2e/foo.txt" "hello")
        "e2e/foo.txt") "processed/e2e/foo.txt" = some "hello" ∧
    slook (serase (supsert [("e2e/foo.txt", "hello")] "processed/e2e/foo.txt" "hello")
        "e2e/foo.txt") "e2e/foo.txt" = none ∧
    (move_blob (fun _ => false)
        (serase (supsert [("e2e/foo.txt", "hello")] "processed/e2e/foo.txt" "hello")
          "e2e/foo.txt") "e2e/foo.txt" "processed/e2e/foo.txt").outcome.isOk = false :=
  C2_amended [("e2e/foo.txt", "hello")] "e2e/foo.txt" "processed/e2e/foo.txt" "hello"
    (fun _ => false) (by decide) (by decide)

/-- Claim C3: the code contradicts it. A valid Work Item whose move fails
after the whole retry budget (the source object is absent, so all three
attempts raise) is acked, but no Error Record reaches the dead-letter queue:
`publish_error` dies on `datetime.now(datetime.UTC)` (`AttributeError`,
swallowed by its own try/except). The end state has neither the destination
object nor a dead-letter record. -/
theorem C3_failed_move_leaves_no_record :
    (process_message (fun _ => false) [] []
        (.json [("path", "e2e/"), ("blob", "foo.txt"),
          ("dest", "processed/123-foo.txt")])).acked = true ∧
    (process_message (fun _ => false) [] []
        (.json [("path", "e2e/"), ("blob", "foo.txt"),
          ("dest", "processed/123-foo.txt")])).moveInvoked = true ∧
    (process_message (fun _ => false) [] []
        (.json [("path", "e2e/"), ("blob", "foo.txt"),
          ("dest", "processed/123-foo.txt")])).moved = false ∧
    slook (process_message (fun _ => false) [] []
        (.json [("path", "e2e/"), ("blob", "foo.txt"),
          ("dest", "processed/123-foo.txt")])).store "processed/e2e/foo.txt" = none ∧
    slook (process_message (fun _ => false) [] []
        (.json [("path", "e2e/"), ("blob", "foo.txt"),
          ("dest", "processed/123-foo.txt")])).store "processed/123-foo.txt" = none ∧
    (process_message (fun _ => false) [] []
        (.json [("path", "e2e/"), ("blob", "foo.txt"),
          ("dest", "processed/123-foo.txt")])).errorQueue = [] := by
  decide

/-- Claim C4: the code contradicts its second half. A message missing the
required fields, or an undecodable body, is acked without invoking the move
— but the promised Error Record never appears on the dead-letter queue,
because `publish_error` dies on `datetime.now(datetime.UTC)`
(`AttributeError`, swallowed by its own try/except). -/
theorem C4_poison_message_leaves_no_record :
    (process_message (fun _ => false) [] []
        (.json [("unexpected", "field")])).acked = true ∧
    (process_message (fun _ => false) [] []
        (.json [("unexpected", "field")])).moveInvoked = false ∧
    (process_message (fun _ => false) [] []
        (.json [("unexpected", "field")])).errorQueue = [] ∧
    (process_message (fun _ => false) [] [] (.badJson "oops")).acked = true ∧
    (process_message (fun _ => false) [] [] (.badJson "oops")).moveInvoked = false ∧
    (process_message (fun _ => false) [] [] (.badJson "oops")).errorQueue = [] := by
  decide

/-- `scale_up` creates exactly the requested number of containers when no
`run` command fails. -/
theorem scale_up_ok (createFail : Nat → Bool) (hcf : ∀ i, createFail i = false) :
    ∀ n i, scale_up createFail i n = .ok n := by
  intro n
  induction n with
  | zero => intro i; rfl
  | succ m ih => intro i; simp [scale_up, hcf, ih]

/-- A container that reaches the stop-and-remove branch and whose own
`stop` and `rm` commands succeed is removed by the cleanup pass, whatever
happens on the other containers. -/
theorem mem_cleanup (stopFail rmFail : String → Bool) (cs : List ContainerInfo)
    (c : ContainerInfo) (hmem : c ∈ cs) (hsel : staleSelected c = true)
    (hstop : stopFail (c.id.take 12) = false) (hrm : rmFail (c.id.take 12) = false) :
    c.id.take 12 ∈ cleanup_stale_containers stopFail rmFail cs := by
  induction cs with
  | nil => cases hmem
  | cons a rest ih =>
    rcases List.mem_cons.mp hmem with rfl | hmemr
    · simp [cleanup_stale_containers, hsel, hstop, hrm]
    · by_cases hsplit : (staleSelected a && !stopFail (a.id.take 12)
          && !rmFail (a.id.take 12)) = true
      · simp only [cleanup_stale_containers, hsplit, if_true]
        exact List.mem_cons_of_mem _ (ih hmemr)
      · simp only [cleanup_stale_containers, hsplit]
        simpa using ih hmemr

/-- `(max - running).toNat` is the Nat difference. -/
theorem toCreate_toNat (maxR running : Nat) :
    ((maxR : Int) - (running : Int)).toNat = maxR - running := Int.toNat_sub maxR running

/-- When no create command fails, the tick reaches the cleanup step and its
removals are exactly the cleanup's. -/
theorem reconcileTick_ok (qLen maxReplicas : Nat) (cs : List ContainerInfo)
    (createFail : Nat → Bool) (stopFail rmFail : String → Bool)
    (hcf : ∀ i, createFail i = false) :
    (reconcileTick qLen cs maxReplicas createFail stopFail rmFail).gcRan = true ∧
    (reconcileTick qLen cs maxReplicas createFail stopFail rmFail).removed =
      cleanup_stale_containers stopFail rmFail cs := by
  by_cases hq : qLen > 0
  · by_cases hpos : ((maxReplicas : Int) - (cs.length : Int) > 0)
    · simp [reconcileTick, hq, hpos, scale_up_ok createFail hcf]
    · simp [reconcileTick, hq, hpos]
  · simp [reconcileTick, hq]

/-- Claim C5: each reconciliation tick with a positive backlog and a pool
below the configured max creates exactly max-minus-running instances (when
the creations succeed), never pushing the pool above max; with a zero
backlog the scaling decision creates nothing and removes nothing — every
removal of the tick comes from the stale-container cleanup alone. -/
theorem C5_scaling_policy (qLen maxReplicas : Nat) (cs : List ContainerInfo)
    (createFail : Nat → Bool) (stopFail rmFail : String → Bool)
    (hcf : ∀ i, createFail i = false) :
    (qLen > 0 → cs.length < maxReplicas →
      (reconcileTick qLen cs maxReplicas createFail stopFail rmFail).created =
        maxReplicas - cs.length) ∧
    (qLen > 0 →
      cs.length + (reconcileTick qLen cs maxReplicas createFail stopFail rmFail).created ≤
        Nat.max cs.length maxReplicas) ∧
    (qLen = 0 →
      (reconcileTick qLen cs maxReplicas createFail stopFail rmFail).created = 0 ∧
      (reconcileTick qLen cs maxReplicas createFail stopFail rmFail).removed =
        cleanup_stale_containers stopFail rmFail cs) := by
  refine ⟨?_, ?_, ?_⟩
  · intro hq hlt
    have hpos : ((maxReplicas : Int) - (cs.length : Int) > 0) := by omega
    simp [reconcileTick, hq, hpos, toCreate_toNat, scale_up_ok createFail hcf]
  · intro hq
    by_cases hlt : cs.length < maxReplicas
    · have hpos : ((maxReplicas : Int) - (cs.length : Int) > 0) := by omega
      simp [reconcileTick, hq, hpos, toCreate_toNat, scale_up_ok createFail hcf]
      omega
    · have hpos : ¬ ((maxReplicas : Int) - (cs.length : Int) > 0) := by omega
      simp [reconcileTick, hq, hpos]
  · intro hq
    subst hq
    simp [reconcileTick]

/-- Claim C5 witness: backlog 1, max 3, one running container — the tick
creates exactly 2 containers and stays within the max. -/
theorem C5_witness :
    (reconcileTick 1 [⟨"aaa", .absolute, 10⟩] 3 (fun _ => false)
      (fun _ => false) (fun _ => false)).created = 3 - 1 ∧
    1 + (reconcileTick 1 [⟨"aaa", .absolute, 10⟩] 3 (fun _ => false)
      (fun _ => false) (fun _ => false)).created ≤ Nat.max 1 3 := by
  have h := C5_scaling_policy 1 3 [⟨"aaa", .absolute, 10⟩]
    (fun _ => false) (fun _ => false) (fun _ => false) (fun _ => rfl)
  have h1 := h.1 (by decide) (by decide)
  have h2 := h.2.1 (by decide)
  exact ⟨by simpa using h1, by simpa using h2⟩

/-- Claim C6, counterexample: a labeled container aged 600 seconds — twice
the 300-second ceiling — whose `CreatedAt` podman reports in the
`"X minutes ago"` form is skipped by the cleanup (the code `continue`s on
any string containing `ago`), so the tick completes its garbage-collection
step without removing it, whatever the backlog. -/
theorem C6_counterexample :
    (reconcileTick 0 [⟨"abcdefabcdef", .agoRelative, 600⟩] 10
      (fun _ => false) (fun _ => false) (fun _ => false)).gcRan = true ∧
    (reconcileTick 0 [⟨"abcdefabcdef", .agoRelative, 600⟩] 10
      (fun _ => false) (fun _ => false) (fun _ => false)).removed = [] ∧
    (reconcileTick 7 [⟨"abcdefabcdef", .agoRelative, 600⟩] 1
      (fun _ => false) (fun _ => false) (fun _ => false)).removed = [] := by
  decide

/-- Claim C6 as amended: a labeled instance whose `CreatedAt` arrives as a
parseable absolute timestamp, whose age exceeds the 300-second ceiling and
whose id is nonempty is stopped and removed within the tick, regardless of
the backlog — provided the tick's create commands do not fail (a create
failure aborts the tick before the cleanup step) and its own stop and
remove commands succeed. -/
theorem C6_amended (qLen maxReplicas : Nat) (cs : List ContainerInfo)
    (createFail : Nat → Bool) (stopFail rmFail : String → Bool) (c : ContainerInfo)
    (hcf : ∀ i, createFail i = false) (hmem : c ∈ cs)
    (hfmt : c.createdFmt = .absolute) (hage : c.ageSeconds > 300)
    (hid : (c.id.take 12 != "") = true)
    (hstop : stopFail (c.id.take 12) = false) (hrm : rmFail (c.id.take 12) = false) :
    c.id.take 12 ∈
      (reconcileTick qLen cs maxReplicas createFail stopFail rmFail).removed := by
  have hsel : staleSelected c = true := by
    simp [staleSelected, hid, hfmt, hage]
  have hmc := mem_cleanup stopFail rmFail cs c hmem hsel hstop hrm
  rw [(reconcileTick_ok qLen maxReplicas cs createFail stopFail rmFail hcf).2]
  exact hmc

/-- Claim C6 witness: an absolute-timestamped container aged 600 seconds is
removed even while the backlog is positive. -/
theorem C6_witness :
    "abcdefabcdef" ∈
      (reconcileTick 5 [⟨"abcdefabcdef", .absolute, 600⟩] 1 (fun _ => false)
        (fun _ => false) (fun _ => false)).removed := by
  have h := C6_amended 5 1 [⟨"abcdefabcdef", .absolute, 600⟩] (fun _ => false)
    (fun _ => false) (fun _ => false) ⟨"abcdefabcdef", .absolute, 600⟩
    (fun _ => rfl) (by decide) (by decide) (by decide) (by decide) (by decide) (by decide)
  simpa using h

/-- Claim C7, counterexample: with a positive backlog, a pool below max and
a failing `podman run`, the exception escaping `scale_up` aborts the rest of
the tick — the cleanup step never runs, so a stale absolute-timestamped
container aged 600 seconds survives the tick. -/
theorem C7_counterexample :
    (reconcileTick 5 [⟨"abcdefabcdef", .absolute, 600⟩] 3
      (fun _ => true) (fun _ => false) (fun _ => false)).gcRan = false ∧
    (reconcileTick 5 [⟨"abcdefabcdef", .absolute, 600⟩] 3
      (fun _ => true) (fun _ => false) (fun _ => false)).removed = [] ∧
    (reconcileTick 5 [⟨"abcdefabcdef", .absolute, 600⟩] 3
      (fun _ => true) (fun _ => false) (fun _ => false)).created = 0 := by
  decide

/-- Claim C7 as amended: stop and remove failures during garbage collection
are caught per container and do not abort the tick — the cleanup step still
runs and every other stale container whose own commands succeed is still
removed, whatever stop/remove failures occur elsewhere; a create failure,
however, aborts the remainder of the tick, skipping garbage collection. -/
theorem C7_amended (qLen maxReplicas : Nat) (cs : List ContainerInfo)
    (createFail : Nat → Bool) (stopFail rmFail : String → Bool) :
    ((∀ i, createFail i = false) →
      (reconcileTick qLen cs maxReplicas createFail stopFail rmFail).gcRan = true ∧
      ∀ c ∈ cs, staleSelected c = true → stopFail (c.id.take 12) = false →
        rmFail (c.id.take 12) = false →
        c.id.take 12 ∈
          (reconcileTick qLen cs maxReplicas createFail stopFail rmFail).removed) ∧
    (qLen > 0 → cs.length < maxReplicas → createFail 0 = true →
      (reconcileTick qLen cs maxReplicas createFail stopFail rmFail).gcRan = false) := by
  constructor
  · intro hcf
    obtain ⟨hgc, hrem⟩ := reconcileTick_ok qLen maxReplicas cs createFail stopFail rmFail hcf
    refine ⟨hgc, ?_⟩
    intro c hmem hsel hstop hrm
    rw [hrem]
    exact mem_cleanup stopFail rmFail cs c hmem hsel hstop hrm
  · intro hq hlt hc0
    have hpos : ((maxReplicas : Int) - (cs.length : Int) > 0) := by omega
    have hm : ((maxReplicas : Int) - (cs.length : Int)).toNat =
        (maxReplicas - cs.length - 1) + 1 := by
      rw [toCreate_toNat]; omega
    simp [reconcileTick, hq, hpos, hm, scale_up, hc0]

/-- Claim C7 witness: all creates succeed, the stop command fails on one
stale container — garbage collection still runs and the other stale
container is removed. -/
theorem C7_witness :
    (reconcileTick 2 [⟨"aaaaaaaaaaaa", .absolute, 700⟩, ⟨"bbbbbbbbbbbb", .absolute, 800⟩] 1
      (fun _ => false) (fun s => s == "aaaaaaaaaaaa") (fun _ => false)).gcRan = true ∧
    (⟨"bbbbbbbbbbbb", .absolute, 800⟩ : ContainerInfo).id.take 12 ∈
      (reconcileTick 2 [⟨"aaaaaaaaaaaa", .absolute, 700⟩, ⟨"bbbbbbbbbbbb", .absolute, 800⟩] 1
        (fun _ => false) (fun s => s == "aaaaaaaaaaaa") (fun _ => false)).removed := by
  have h := (C7_amended 2 1
    [⟨"aaaaaaaaaaaa", .absolute, 700⟩, ⟨"bbbbbbbbbbbb", .absolute, 800⟩]
    (fun _ => false) (fun s => s == "aaaaaaaaaaaa") (fun _ => false)).1 (fun _ => rfl)
  exact ⟨h.1, h.2 ⟨"bbbbbbbbbbbb", .absolute, 800⟩ (by decide) (by decide)
    (by decide) (by decide)⟩

/-- Claim C8: the move is attempted at most 3 times; the waits slept between
attempts follow the tenacity exponential-backoff formula at attempt numbers
1, 2, ... and are strictly increasing; and a transient error within the
budget is retried rather than surfaced — if the source exists and attempt 2
is not hit, the move succeeds no matter what attempt 1 did. -/
theorem C8_retry_budget (t : Nat → Bool) (store : Store) (src dest : String) :
    (move_blob t store src dest).attempts ≤ 3 ∧
    (move_blob t store src dest).waits =
      List.map (wait_exponential 1 1 4)
        (List.range' 1 ((move_blob t store src dest).attempts - 1)) ∧
    (move_blob t store src dest).waits.Chain' (fun a b => a < b) ∧
    (t 2 = false → (slook store src).isSome = true →
      (move_blob t store src dest).outcome.isOk = true) := by
  rcases hs : slook store src with _ | c <;> by_cases h1 : t 1 <;> by_cases h2 : t 2 <;>
    by_cases h3 : t 3 <;>
      simp [move_blob, runRetry, moveAttempt, wait_exponential, hs, h1, h2, h3,
        Except.isOk, Except.toBool, List.range']

/-- Claim C8 witness: a transient failure on attempt 1 with the source
present — the retry budget and backoff shape hold and the move still
succeeds. -/
theorem C8_witness :
    (move_blob (fun n => n == 1) [("a", "x")] "a" "b").attempts ≤ 3 ∧
    (move_blob (fun n => n == 1) [("a", "x")] "a" "b").waits =
      List.map (wait_exponential 1 1 4)
        (List.range' 1 ((move_blob (fun n => n == 1) [("a", "x")] "a" "b").attempts - 1)) ∧
    (move_blob (fun n => n == 1) [("a", "x")] "a" "b").waits.Chain' (fun a b => a < b) ∧
    (move_blob (fun n => n == 1) [("a", "x")] "a" "b").outcome.isOk = true := by
  have h := C8_retry_budget (fun n => n == 1) [("a", "x")] "a" "b"
  exact ⟨h.1, h.2.1, h.2.2.1, h.2.2.2 (by decide) (by decide)⟩

/-- The poll loop publishes one message per listed blob outside the
`processed/` prefix. -/
theorem pollPublish_length (g : Nat → String) (c : String) (bs : List String) (k : Nat) :
    (pollPublish g c bs k).length =
      (bs.filter (fun b => !(pyStartswith b "processed/"))).length := by
  induction bs generalizing k with
  | nil => rfl
  | cons b rest ih =>
    by_cases hb : pyStartswith b "processed/" <;>
      simp [pollPublish, hb, ih]

/-- Every message published by the poll loop is persistent and carries a
destination built from one fresh uuid draw (index in the half-open draw
range) and the message's own blob name. -/
theorem pollPublish_mem (g : Nat → String) (c : String) (bs : List String) (k : Nat)
    (m : WorkMsg) (hm : m ∈ pollPublish g c bs k) :
    m.deliveryMode = 2 ∧
    ∃ j, k ≤ j ∧ j < k + bs.length ∧ m.dest = "processed/" ++ g j ++ "-" ++ m.blob := by
  induction bs generalizing k with
  | nil => cases hm
  | cons b rest ih =>
    by_cases hb : pyStartswith b "processed/"
    · obtain ⟨hd, j, hj1, hj2, hj3⟩ := ih k (by simpa [pollPublish, hb] using hm)
      exact ⟨hd, j, hj1, by simp only [List.length_cons]; omega, hj3⟩
    · rw [pollPublish] at hm
      simp only [hb, Bool.false_eq_true, if_false] at hm
      rcases List.mem_cons.mp hm with rfl | hmem
      · exact ⟨rfl, k, Nat.le_refl k, by simp, rfl⟩
      · obtain ⟨hd, j, hj1, hj2, hj3⟩ := ih (k + 1) hmem
        exact ⟨hd, j, by omega, by simpa using by omega, hj3⟩

/-- Destinations built from equal-length uuids determine the uuid. -/
theorem dest_inj (u1 u2 n1 n2 : String) (hlen : u1.length = u2.length)
    (h : "processed/" ++ u1 ++ "-" ++ n1 = "processed/" ++ u2 ++ "-" ++ n2) :
    u1 = u2 := by
  have hd := congrArg String.data h
  simp only [String.data_append] at hd
  rw [List.append_assoc ("processed/".data ++ u1.data) "-".data n1.data,
    List.append_assoc ("processed/".data ++ u2.data) "-".data n2.data] at hd
  have hlen2 : ("processed/".data ++ u1.data).length =
      ("processed/".data ++ u2.data).length := by
    have : u1.data.length = u2.data.length := hlen
    simp [this]
  have hfirst := (List.append_inj hd hlen2).1
  exact String.ext (List.append_cancel_left hfirst)

/-- With pairwise-distinct equal-length uuid draws in the consumed index
range, the destinations published in one poll pass are pairwise distinct. -/
theorem pollPublish_nodup (g : Nat → String) (c : String) (bs : List String) (k : Nat)
    (hg : ∀ i, k ≤ i → i < k + bs.length → ∀ j, k ≤ j → j < k + bs.length →
      i ≠ j → g i ≠ g j)
    (hlen : ∀ i, k ≤ i → i < k + bs.length → (g i).length = 36) :
    ((pollPublish g c bs k).map WorkMsg.dest).Nodup := by
  induction bs generalizing k with
  | nil => simp [pollPublish]
  | cons b rest ih =>
    by_cases hb : pyStartswith b "processed/"
    · rw [pollPublish]
      simp only [hb, if_true]
      refine ih k (fun i hi1 hi2 j hj1 hj2 hij => hg i hi1 (by simp at hi2 ⊢; omega)
        j hj1 (by simp at hj2 ⊢; omega) hij)
        (fun i hi1 hi2 => hlen i hi1 (by simp at hi2 ⊢; omega))
    · rw [pollPublish]
      simp only [hb, Bool.false_eq_true, if_false, List.map_cons]
      refine List.nodup_cons.mpr ⟨?_, ?_⟩
      · intro hmemd
        obtain ⟨m, hm, hdeq⟩ := List.mem_map.mp hmemd
        obtain ⟨-, j, hj1, hj2, hj3⟩ := pollPublish_mem g c rest (k + 1) m hm
        simp only [build_message] at hdeq
        rw [hj3] at hdeq
        have hbound : k < k + (b :: rest).length := by simp
        have hjbound : j < k + (b :: rest).length := by
          simp only [List.length_cons]; omega
        have hlenjk : (g j).length = (g k).length := by
          rw [hlen j (by omega) hjbound, hlen k (Nat.le_refl k) hbound]
        have huv : g j = g k :=
          dest_inj (g j) (g k) m.blob (rpartitionSlash b).2 hlenjk hdeq
        exact hg j (by omega) hjbound k (Nat.le_refl k) hbound (by omega) huv
      · refine ih (k + 1) (fun i hi1 hi2 j hj1 hj2 hij => hg i (by omega)
          (by simp at hi2 ⊢; omega) j (by omega) (by simp at hj2 ⊢; omega) hij)
          (fun i hi1 hi2 => hlen i (by omega) (by simp at hi2 ⊢; omega))

/-- Claim C9: one poll tick leaves the store untouched, publishes exactly
one persistent-delivery message per listed blob not under the `processed/`
prefix (blobs under that prefix produce nothing), each destination has the
form `processed/` plus a fresh uuid draw plus `-` plus the blob name, and —
with pairwise-distinct standard-length (36-character) uuid draws — no two
published messages target the same destination. -/
theorem C9_poll_contract (g : Nat → String) (c : String) (store : Store)
    (hg : ∀ i, i < store.length → ∀ j, j < store.length → i ≠ j → g i ≠ g j)
    (hlen : ∀ i, i < store.length → (g i).length = 36) :
    (pollTick g c store).1 = store ∧
    (pollTick g c store).2.length =
      ((store.map Prod.fst).filter (fun b => !(pyStartswith b "processed/"))).length ∧
    (∀ m ∈ (pollTick g c store).2, m.deliveryMode = 2 ∧
      ∃ j, j < store.length ∧ m.dest = "processed/" ++ g j ++ "-" ++ m.blob) ∧
    ((pollTick g c store).2.map WorkMsg.dest).Nodup := by
  refine ⟨rfl, pollPublish_length g c _ 0, ?_, ?_⟩
  · intro m hm
    obtain ⟨hd, j, -, hj2, hj3⟩ := pollPublish_mem g c _ 0 m hm
    exact ⟨hd, j, by simpa using hj2, hj3⟩
  · refine pollPublish_nodup g c _ 0 ?_ ?_
    · intro i hi1 hi2 j hj1 hj2 hij
      exact hg i (by simpa using hi2) j (by simpa using hj2) hij
    · intro i hi1 hi2
      exact hlen i (by simpa using hi2)

/-- Claim C9 witness: a store with one fresh object and one already
processed object, and two distinct 36-character uuid draws. -/
theorem C9_witness :
    (pollTick (fun k => if k = 0 then "000000000000000000000000000000000000"
        else "111111111111111111111111111111111111") "incoming"
      [("e2e/foo.txt", "h"), ("processed/x", "y")]).1 =
      [("e2e/foo.txt", "h"), ("processed/x", "y")] ∧
    (pollTick (fun k => if k = 0 then "000000000000000000000000000000000000"
        else "111111111111111111111111111111111111") "incoming"
      [("e2e/foo.txt", "h"), ("processed/x", "y")]).2.length =
      ((([("e2e/foo.txt", "h"), ("processed/x", "y")] : Store).map Prod.fst).filter
        (fun b => !(pyStartswith b "processed/"))).length ∧
    (∀ m ∈ (pollTick (fun k => if k = 0 then "000000000000000000000000000000000000"
        else "111111111111111111111111111111111111") "incoming"
      [("e2e/foo.txt", "h"), ("processed/x", "y")]).2, m.deliveryMode = 2 ∧
      ∃ j, j < ([("e2e/foo.txt", "h"), ("processed/x", "y")] : Store).length ∧
        m.dest = "processed/" ++
          (fun k => if k = 0 then "000000000000000000000000000000000000"
            else "111111111111111111111111111111111111") j ++ "-" ++ m.blob) ∧
    ((pollTick (fun k => if k = 0 then "000000000000000000000000000000000000"
        else "111111111111111111111111111111111111") "incoming"
      [("e2e/foo.txt", "h"), ("processed/x", "y")]).2.map WorkMsg.dest).Nodup :=
  C9_poll_contract
    (fun k => if k = 0 then "000000000000000000000000000000000000"
      else "111111111111111111111111111111111111")
    "incoming" [("e2e/foo.txt", "h"), ("processed/x", "y")]
    (by decide) (by decide)

/-- Claim C10: for two valid messages that differ only in their `dest`
field value, processing is indistinguishable — the same store mutation, the
same computed source and destination paths, the same ack and success flag;
the `dest` field, though required by validation, never influences the move. -/
theorem C10_dest_field_ignored (path blob d1 d2 : String) (store : Store)
    (t : Nat → Bool) (eq0 : List ErrorRecord) :
    (process_message t store eq0
        (.json [("path", path), ("blob", blob), ("dest", d1)])).store =
      (process_message t store eq0
        (.json [("path", path), ("blob", blob), ("dest", d2)])).store ∧
    (process_message t store eq0
        (.json [("path", path), ("blob", blob), ("dest", d1)])).srcPath =
      (process_message t store eq0
        (.json [("path", path), ("blob", blob), ("dest", d2)])).srcPath ∧
    (process_message t store eq0
        (.json [("path", path), ("blob", blob), ("dest", d1)])).destPath =
      (process_message t store eq0
        (.json [("path", path), ("blob", blob), ("dest", d2)])).destPath ∧
    (process_message t store eq0
        (.json [("path", path), ("blob", blob), ("dest", d1)])).acked =
      (process_message t store eq0
        (.json [("path", path), ("blob", blob), ("dest", d2)])).acked ∧
    (process_message t store eq0
        (.json [("path", path), ("blob", blob), ("dest", d1)])).moved =
      (process_message t store eq0
        (.json [("path", path), ("blob", blob), ("dest", d2)])).moved := by
  rw [process_message_valid t store eq0 path blob d1,
    process_message_valid t store eq0 path blob d2]
  exact ⟨rfl, rfl, rfl, rfl, rfl⟩

end PodmanScaler
